import Mathlib

/-!
Shallow embedding of the session/executor coordination core of Flame:
the storage facade (`src/session_manager/src/storage/mod.rs`), the
executor state machine (`src/session_manager/src/storage/states/`),
the wait primitives, and the config loader (`src/common/src/ctx.rs`).

Rust `HashMap`s are embedded as association lists with `alookup` /
`ainsert`; shared mutable records behind `Arc<Mutex<_>>` pointers are
embedded by value, with pointer writes modelled as write-backs into the
owning map at the key through which the pointer was obtained.  The
`f64` fields `desired` / `allocated` are carried as `Int`: no operation
in the verified fragment performs arithmetic on them.
-/

namespace Flame

abbrev SessionID := Nat
abbrev TaskID := Nat
abbrev ExecutorID := String
abbrev TaskInput := String
abbrev TaskOutput := String

inductive SessionState where
  | Open
  | Closed
deriving DecidableEq, Repr

inductive TaskState where
  | Pending
  | Running
  | Succeed
  | Failed
  | Aborting
  | Aborted
deriving DecidableEq, Repr

inductive ExecutorState where
  | Idle
  | Binding
  | Bound
  | Unbinding
  | Unknown
deriving DecidableEq, Repr

/-- Error kinds of `common::FlameError` restricted to those reachable in
the embedded fragment. -/
inductive FlameError where
  | NotFound (msg : String)
  | InvalidConfig (msg : String)
  | InvalidState (msg : String)
  | Internal (msg : String)
deriving DecidableEq, Repr

/-- Result of a storage/state-machine verb.  `panics` embeds `todo!()`
in the source (an abort, distinct from returning an error). -/
inductive VerbRes (α : Type) where
  | ok : α → VerbRes α
  | err : FlameError → VerbRes α
  | panics : VerbRes α
deriving DecidableEq, Repr

/-- `std::task::Poll` for the two hand-written futures. -/
inductive Poll (α : Type) where
  | Pending : Poll α
  | Ready : α → Poll α
deriving DecidableEq, Repr

/- Association-list maps standing in for `HashMap`. -/

/-- Lookup in an association list (embeds `HashMap::get`). -/
def alookup {α β : Type} [DecidableEq α] : List (α × β) → α → Option β
  | [], _ => none
  | (k, v) :: rest, a => if a = k then some v else alookup rest a

/-- Insert-or-replace in an association list (embeds `HashMap::insert`). -/
def ainsert {α β : Type} [DecidableEq α] : List (α × β) → α → β → List (α × β)
  | [], k, v => [(k, v)]
  | (k0, v0) :: rest, k, v =>
      if k = k0 then (k, v) :: rest else (k0, v0) :: ainsert rest k v

theorem alookup_ainsert_self {α β : Type} [DecidableEq α]
    (l : List (α × β)) (k : α) (v : β) : alookup (ainsert l k v) k = some v := by
  induction l with
  | nil => simp [ainsert, alookup]
  | cons hd tl ih =>
      obtain ⟨k0, v0⟩ := hd
      by_cases h : k = k0
      · simp [ainsert, alookup, h]
      · simp [ainsert, alookup, h, ih]

theorem alookup_ainsert_ne {α β : Type} [DecidableEq α]
    (l : List (α × β)) (k k' : α) (v : β) (h : k' ≠ k) :
    alookup (ainsert l k v) k' = alookup l k' := by
  induction l with
  | nil => simp [ainsert, alookup, h]
  | cons hd tl ih =>
      obtain ⟨k0, v0⟩ := hd
      by_cases h0 : k = k0
      · subst h0
        simp [ainsert, alookup, h]
      · by_cases h1 : k' = k0
        · simp [ainsert, alookup, h0, h1]
        · simp [ainsert, alookup, h0, h1, ih]

/- Data model (`common/src/apis.rs` is not under src/; record fields are
taken from spec §3, which matches the fields used by
`src/session_manager/src/storage/mod.rs` and `states/unbinding.rs`). -/

structure Application where
  name : String
  command : String
  arguments : List String
  environments : List String
  working_directory : String
deriving DecidableEq, Repr

structure Task where
  id : TaskID
  ssn_id : SessionID
  input : Option TaskInput
  output : Option TaskOutput
  state : TaskState
deriving DecidableEq, Repr

/-- Modelled from the spec: `Task::is_completed` lives in the missing
`common/src/apis.rs`; §4.B says it is true for Succeed/Failed/Aborted. -/
def Task.is_completed (t : Task) : Bool :=
  match t.state with
  | .Succeed => true
  | .Failed => true
  | .Aborted => true
  | _ => false

structure Session where
  id : SessionID
  application : String
  slots : Int
  state : SessionState
  desired : Int
  allocated : Int
  tasks : List (TaskID × Task)
  tasks_by_state : List (TaskState × List TaskID)
deriving DecidableEq, Repr

structure Executor where
  id : ExecutorID
  application : Application
  slots : Int
  state : ExecutorState
  ssn_id : Option SessionID
  task_id : Option TaskID
deriving DecidableEq, Repr

/-- Task ids currently indexed under a given state. -/
def Session.bucket (s : Session) (st : TaskState) : List TaskID :=
  (alookup s.tasks_by_state st).getD []

/-- Remove a task id from every `tasks_by_state` bucket. -/
def removeFromBuckets (l : List (TaskState × List TaskID)) (tid : TaskID) :
    List (TaskState × List TaskID) :=
  l.map fun (st, ids) => (st, ids.filter (fun i => i ≠ tid))

/-- Append a task id to the bucket of a given state. -/
def addToBucket (l : List (TaskState × List TaskID)) (st : TaskState) (tid : TaskID) :
    List (TaskState × List TaskID) :=
  ainsert l st (((alookup l st).getD []) ++ [tid])

/-- Modelled from the spec: `Session::add_task` lives in the missing
`common/src/apis.rs`; §4.C/§4.B — insert (or replace) the task in the
`tasks` map and keep `tasks_by_state` consistent, the task id appearing
only in the bucket of its current state. -/
def Session.add_task (s : Session) (t : Task) : Session :=
  { s with
    tasks := ainsert s.tasks t.id t
    tasks_by_state := addToBucket (removeFromBuckets s.tasks_by_state t.id) t.state t.id }

/-- Modelled from the spec: `Session::update_task_state` lives in the
missing `common/src/apis.rs`; §4.B — move the task between buckets,
recording the new state.  Fallible (`unbinding.rs` applies `?` to it);
a missing task yields `NotFound`. -/
def Session.update_task_state (s : Session) (tid : TaskID) (st : TaskState) :
    Except FlameError Session :=
  match alookup s.tasks tid with
  | none => .error (.NotFound (toString tid))
  | some t => .ok (s.add_task { t with state := st })

/-- Modelled from the spec: `Session::pop_pending_task` lives in the
missing `common/src/apis.rs`; §4.B — remove-and-return a Pending task,
deterministically the first of the Pending bucket. -/
def Session.pop_pending_task (s : Session) : Option (Task × Session) :=
  match s.bucket .Pending with
  | [] => none
  | tid :: rest =>
      match alookup s.tasks tid with
      | none => none
      | some t =>
          some (t, { s with tasks_by_state := ainsert s.tasks_by_state .Pending rest })

/- Config loader, from `src/common/src/ctx.rs`. -/

structure FlameContext where
  name : String
  endpoint : String
  slot : String
  policy : String
  storage : String
  applications : List Application
deriving DecidableEq, Repr

def DEFAULT_FLAME_CONF : String := "flame-conf.yaml"

/-- The path `FlameContext::from_file` settles on: the argument when
given, otherwise `$HOME/.flame/flame-conf.yaml`. -/
def resolvedPath (fp : Option String) (home : String) : String :=
  match fp with
  | none => home ++ "/.flame/" ++ DEFAULT_FLAME_CONF
  | some p => p

/-- `FlameContext::from_file` (`src/common/src/ctx.rs`).  The filesystem
probe `Path::is_file` and the `confy::load_path` parser are external
effects, passed in as `is_file` and `load_path` (`load_path` returning
`none` embeds any `confy` error). -/
def FlameContext.from_file (fp : Option String) (home : String)
    (is_file : String → Bool) (load_path : String → Option FlameContext) :
    Except FlameError FlameContext :=
  let p := resolvedPath fp home
  if is_file p = false then
    .error (.InvalidConfig ("<" ++ p ++ "> is not a file"))
  else
    match load_path p with
    | none => .error (.Internal "flame-conf")
    | some ctx =>
        if ctx.applications.isEmpty then
          .error (.InvalidConfig "no application")
        else
          .ok ctx

/- Storage facade, from `src/session_manager/src/storage/mod.rs`.
The two `HashMap`s of `Storage`; the engine handle is embedded by the
spec-modelled engine operations below. -/

structure Storage where
  sessions : List (SessionID × Session)
  executors : List (ExecutorID × Executor)
deriving DecidableEq, Repr

/-- `Storage::get_session_ptr`. -/
def Storage.get_session_ptr (s : Storage) (id : SessionID) : Except FlameError Session :=
  match alookup s.sessions id with
  | none => .error (.NotFound (toString id))
  | some ssn => .ok ssn

/-- `Storage::get_task_ptr`; both the missing-session and the
missing-task error carry `ssn_id.to_string()` in the source. -/
def Storage.get_task_ptr (s : Storage) (ssn_id : SessionID) (task_id : TaskID) :
    Except FlameError Task :=
  match alookup s.sessions ssn_id with
  | none => .error (.NotFound (toString ssn_id))
  | some ssn =>
      match alookup ssn.tasks task_id with
      | none => .error (.NotFound (toString ssn_id))
      | some t => .ok t

/-- `Storage::get_executor_ptr`. -/
def Storage.get_executor_ptr (s : Storage) (id : ExecutorID) : Except FlameError Executor :=
  match alookup s.executors id with
  | none => .error (.NotFound id)
  | some e => .ok e

/-- Next task id for a session.  Modelled from the spec: the sqlite
engine (not under src/) is authoritative for ID assignment; §4.A and
I5 require task ids monotonic per session. -/
def nextTaskId (ssn : Session) : TaskID :=
  (ssn.tasks.map Prod.fst).foldr max 0 + 1

/-- Modelled from the spec: `engine.create_task` (the sqlite engine is
not under src/).  §4.C — it persists the task and "Fails `NotFound` if
session missing, `InvalidState` if session Closed"; the engine's
session table mirrors the cache (write-through, §4.C). -/
def engineCreateTask (s : Storage) (ssn_id : SessionID) (input : Option TaskInput) :
    Except FlameError Task :=
  match alookup s.sessions ssn_id with
  | none => .error (.NotFound (toString ssn_id))
  | some ssn =>
      if ssn.state = SessionState.Closed then
        .error (.InvalidState "session closed")
      else
        .ok { id := nextTaskId ssn, ssn_id := ssn_id, input := input,
              output := none, state := .Pending }

/-- `Storage::create_task`: engine persists first, then the cached
session gains the task via `add_task`.  The second component is the
post-state of the cache (unchanged when an error propagates, since the
only cache mutation is the final `add_task`). -/
def Storage.create_task (s : Storage) (ssn_id : SessionID) (input : Option TaskInput) :
    Except FlameError Task × Storage :=
  match engineCreateTask s ssn_id input with
  | .error er => (.error er, s)
  | .ok task =>
      match alookup s.sessions ssn_id with
      | none => (.error (.NotFound (toString ssn_id)), s)
      | some ssn =>
          (.ok task, { s with sessions := ainsert s.sessions ssn_id (ssn.add_task task) })

/-- `Storage::register_executor`: unconditional `HashMap::insert` of the
(cloned) executor under its id. -/
def Storage.register_executor (s : Storage) (e : Executor) :
    Except FlameError Unit × Storage :=
  (.ok (), { s with executors := ainsert s.executors e.id e })

/- Executor state machine.  Of the per-state handlers only
`states/unbinding.rs` is under src/; the dispatcher `states::from` and
the Idle/Binding/Bound/Unknown handlers are modelled from the spec
(§4.D transition table; the `Unknown` handler rejects every verb with
`InvalidState`).  Handlers mutate the executor / session records
through pointers; here they return the updated records, which the
storage verbs write back into the maps at the keys the pointers were
obtained from. -/

/-- Modelled from the spec: `IdleState::bind_session` (§4.D row
Idle/`bind_session`): set `ssn_id`, set state Binding. -/
def IdleState.bind_session (e : Executor) (ssn : Session) : VerbRes Unit × Executor :=
  (.ok (), { e with ssn_id := some ssn.id, state := .Binding })

/-- Modelled from the spec: `BindingState::bind_session_completed`
(§4.D row Binding/`bind_session_completed`): set state Bound. -/
def BindingState.bind_session_completed (e : Executor) : VerbRes Unit × Executor :=
  (.ok (), { e with state := .Bound })

/-- Modelled from the spec: `BindingState::unbind_executor` (§4.D row
Binding/`unbind_executor`): set state Unbinding. -/
def BindingState.unbind_executor (e : Executor) : VerbRes Unit × Executor :=
  (.ok (), { e with state := .Unbinding })

/-- Modelled from the spec: `BoundState::unbind_executor` (§4.D row
Bound/`unbind_executor`): set state Unbinding. -/
def BoundState.unbind_executor (e : Executor) : VerbRes Unit × Executor :=
  (.ok (), { e with state := .Unbinding })

/-- `UnbindingState::unbind_executor` (src, `unbinding.rs` lines
31-38): re-writes state Unbinding and succeeds. -/
def UnbindingState.unbind_executor (e : Executor) : VerbRes Unit × Executor :=
  (.ok (), { e with state := .Unbinding })

/-- `UnbindingState::unbind_executor_completed` (src, `unbinding.rs`
lines 40-49): state Idle, `ssn_id`/`task_id` cleared; the session is
not touched. -/
def UnbindingState.unbind_executor_completed (e : Executor) : VerbRes Unit × Executor :=
  (.ok (), { e with state := .Idle, ssn_id := none, task_id := none })

/-- `UnbindingState::launch_task` (src, `unbinding.rs` lines 51-53):
`Ok(None)`, nothing changed. -/
def UnbindingState.launch_task (e : Executor) (ssn : Session) :
    VerbRes (Option Task) × Executor × Session :=
  (.ok none, e, ssn)

/-- Modelled from the spec: `BoundState::launch_task` (§4.D row
Bound/`launch_task`): pop one Pending task, set `task_id`, mark the
task Running; with no Pending task return `None`, remain Bound. -/
def BoundState.launch_task (e : Executor) (ssn : Session) :
    VerbRes (Option Task) × Executor × Session :=
  match ssn.pop_pending_task with
  | none => (.ok none, e, ssn)
  | some (t, ssn2) =>
      let running := { t with state := TaskState.Running }
      (.ok (some running), { e with task_id := some t.id }, ssn2.add_task running)

/-- Write the output into the task record held by the session (the
pointer write `task.output = task_output` of the source; the task
pointer aliases the session's map entry at `tid`). -/
def setTaskOutput (ssn : Session) (tid : TaskID) (out : Option TaskOutput) : Session :=
  match alookup ssn.tasks tid with
  | none => ssn
  | some t => { ssn with tasks := ainsert ssn.tasks tid { t with output := out } }

/-- `UnbindingState::complete_task` (src, `unbinding.rs` lines 55-79):
clear the executor's `task_id`, write the output into the task, then
`update_task_state(.., Succeed)`.  The first two writes persist even
when `update_task_state` errors (they happen before the `?`). -/
def UnbindingState.complete_task (e : Executor) (ssn : Session) (tid : TaskID)
    (out : Option TaskOutput) : VerbRes Unit × Executor × Session :=
  let e2 := { e with task_id := none }
  let ssn2 := setTaskOutput ssn tid out
  match ssn2.update_task_state tid .Succeed with
  | .error er => (.err er, e2, ssn2)
  | .ok ssn3 => (.ok (), e2, ssn3)

/-- Modelled from the spec: `BoundState::complete_task` (§4.D row
Bound/`complete_task`): write `out` to the task, transition it to
Succeed, clear the executor's `task_id`. -/
def BoundState.complete_task (e : Executor) (ssn : Session) (tid : TaskID)
    (out : Option TaskOutput) : VerbRes Unit × Executor × Session :=
  let e2 := { e with task_id := none }
  let ssn2 := setTaskOutput ssn tid out
  match ssn2.update_task_state tid .Succeed with
  | .error er => (.err er, e2, ssn2)
  | .ok ssn3 => (.ok (), e2, ssn3)

/-- `Storage::bind_session`: look up the executor, build its state
handler, look up the session, forward the verb, write the executor back.
`UnbindingState::bind_session` is `todo!()` in src (`panics`); the
non-Idle non-Unbinding handlers reject per the spec table. -/
def Storage.bind_session (s : Storage) (id : ExecutorID) (ssn_id : SessionID) :
    VerbRes Unit × Storage :=
  match alookup s.executors id with
  | none => (.err (.NotFound id), s)
  | some e =>
      match alookup s.sessions ssn_id with
      | none => (.err (.NotFound (toString ssn_id)), s)
      | some ssn =>
          match e.state with
          | .Idle =>
              match IdleState.bind_session e ssn with
              | (r, e2) => (r, { s with executors := ainsert s.executors id e2 })
          | .Unbinding => (.panics, s)
          | _ => (.err (.InvalidState "bind_session"), s)

/-- `Storage::bind_session_completed`.  `UnbindingState` has `todo!()`
for this verb in src; other non-Binding handlers reject per the spec
table. -/
def Storage.bind_session_completed (s : Storage) (id : ExecutorID) :
    VerbRes Unit × Storage :=
  match alookup s.executors id with
  | none => (.err (.NotFound id), s)
  | some e =>
      match e.state with
      | .Binding =>
          match BindingState.bind_session_completed e with
          | (r, e2) => (r, { s with executors := ainsert s.executors id e2 })
      | .Unbinding => (.panics, s)
      | _ => (.err (.InvalidState "bind_session_completed"), s)

/-- `Storage::unbind_executor`. -/
def Storage.unbind_executor (s : Storage) (id : ExecutorID) : VerbRes Unit × Storage :=
  match alookup s.executors id with
  | none => (.err (.NotFound id), s)
  | some e =>
      match e.state with
      | .Binding =>
          match BindingState.unbind_executor e with
          | (r, e2) => (r, { s with executors := ainsert s.executors id e2 })
      | .Bound =>
          match BoundState.unbind_executor e with
          | (r, e2) => (r, { s with executors := ainsert s.executors id e2 })
      | .Unbinding =>
          match UnbindingState.unbind_executor e with
          | (r, e2) => (r, { s with executors := ainsert s.executors id e2 })
      | _ => (.err (.InvalidState "unbind_executor"), s)

/-- `Storage::unbind_executor_completed`: only the Unbinding handler
(src) implements the verb; others reject per the spec table. -/
def Storage.unbind_executor_completed (s : Storage) (id : ExecutorID) :
    VerbRes Unit × Storage :=
  match alookup s.executors id with
  | none => (.err (.NotFound id), s)
  | some e =>
      match e.state with
      | .Unbinding =>
          match UnbindingState.unbind_executor_completed e with
          | (r, e2) => (r, { s with executors := ainsert s.executors id e2 })
      | _ => (.err (.InvalidState "unbind_executor_completed"), s)

/-- `Storage::launch_task` (`mod.rs` lines 277-304): resolve the
executor; `InvalidState` when it has no session; when it already holds
a `task_id`, return that task's current record without dispatching;
otherwise resolve the session and forward to the state handler. -/
def Storage.launch_task (s : Storage) (id : ExecutorID) :
    VerbRes (Option Task) × Storage :=
  match alookup s.executors id with
  | none => (.err (.NotFound id), s)
  | some e =>
      match e.ssn_id with
      | none => (.err (.InvalidState "no session in bound executor"), s)
      | some sid =>
          match e.task_id with
          | some tid =>
              match s.get_task_ptr sid tid with
              | .error er => (.err er, s)
              | .ok t => (.ok (some t), s)
          | none =>
              match alookup s.sessions sid with
              | none => (.err (.NotFound (toString sid)), s)
              | some ssn =>
                  match e.state with
                  | .Bound =>
                      match BoundState.launch_task e ssn with
                      | (r, e2, ssn2) =>
                          (r, { s with executors := ainsert s.executors id e2,
                                       sessions := ainsert s.sessions sid ssn2 })
                  | .Unbinding =>
                      match UnbindingState.launch_task e ssn with
                      | (r, e2, ssn2) =>
                          (r, { s with executors := ainsert s.executors id e2,
                                       sessions := ainsert s.sessions sid ssn2 })
                  | _ => (.err (.InvalidState "launch_task"), s)

/-- `Storage::complete_task` (`mod.rs` lines 306-331): read `ssn_id` /
`task_id` from the executor (`InvalidState` when either is `None`),
resolve the task and session pointers, forward to the state handler
(Bound spec-modelled, Unbinding from src), write both records back. -/
def Storage.complete_task (s : Storage) (id : ExecutorID) (out : Option TaskOutput) :
    VerbRes Unit × Storage :=
  match alookup s.executors id with
  | none => (.err (.NotFound id), s)
  | some e =>
      match e.ssn_id with
      | none => (.err (.InvalidState "no session in executor"), s)
      | some sid =>
          match e.task_id with
          | none => (.err (.InvalidState "no task in executor"), s)
          | some tid =>
              match s.get_task_ptr sid tid with
              | .error er => (.err er, s)
              | .ok _ =>
                  match alookup s.sessions sid with
                  | none => (.err (.NotFound (toString sid)), s)
                  | some ssn =>
                      match e.state with
                      | .Bound =>
                          match BoundState.complete_task e ssn tid out with
                          | (r, e2, ssn2) =>
                              (r, { s with executors := ainsert s.executors id e2,
                                           sessions := ainsert s.sessions sid ssn2 })
                      | .Unbinding =>
                          match UnbindingState.complete_task e ssn tid out with
                          | (r, e2, ssn2) =>
                              (r, { s with executors := ainsert s.executors id e2,
                                           sessions := ainsert s.sessions sid ssn2 })
                      | _ => (.err (.InvalidState "complete_task"), s)

/- Wait primitives, from `src/session_manager/src/storage/mod.rs`
lines 351-419. -/

/-- `WaitForSsnFuture::poll`: the future owns a clone of the executor
pointer and inspects only the record behind it — the executors map is
never consulted.  `e` is the current value of the captured record. -/
def waitForSsnPoll (e : Executor) : Poll (Except FlameError SessionID) :=
  match e.ssn_id with
  | none => .Pending
  | some sid => .Ready (.ok sid)

/-- The fields `WatchTaskFuture::new` snapshots at construction. -/
structure WatchTaskFuture where
  current_state : TaskState
  ssn_id : SessionID
  task_id : TaskID
deriving DecidableEq, Repr

/-- `WatchTaskFuture::new` (`mod.rs` lines 386-399): snapshot the
captured task's state and global id. -/
def WatchTaskFuture.new (t : Task) : WatchTaskFuture :=
  { current_state := t.state, ssn_id := t.ssn_id, task_id := t.id }

/-- `WatchTaskFuture::poll` (`mod.rs` lines 402-418): re-resolve the
task through the storage (a deleted task/session surfaces the
`get_task_ptr` error as `Ready(Err ..)` via `?`); ready when the state
moved off the snapshot or the task is completed. -/
def WatchTaskFuture.poll (f : WatchTaskFuture) (s : Storage) :
    Poll (Except FlameError Unit) :=
  match s.get_task_ptr f.ssn_id f.task_id with
  | .error er => .Ready (.error er)
  | .ok t =>
      if f.current_state ≠ t.state ∨ t.is_completed then .Ready (.ok ())
      else .Pending

/- Concrete fixtures used by witnesses and counterexamples. -/

def exApp : Application :=
  { name := "matmul", command := "cmd", arguments := [], environments := [],
    working_directory := "/" }

def exTask1 : Task := { id := 1, ssn_id := 1, input := none, output := none, state := .Running }

def exSsn1 : Session :=
  { id := 1, application := "matmul", slots := 1, state := .Open, desired := 1,
    allocated := 5, tasks := [(1, exTask1)], tasks_by_state := [(.Running, [1])] }

def exSsnClosed : Session :=
  { id := 2, application := "matmul", slots := 1, state := .Closed, desired := 0,
    allocated := 0, tasks := [], tasks_by_state := [] }

def exStClosed : Storage := { sessions := [(2, exSsnClosed)], executors := [] }

def exExecUb : Executor :=
  { id := "e1", application := exApp, slots := 1, state := .Unbinding,
    ssn_id := some 1, task_id := none }

def exStUb : Storage := { sessions := [(1, exSsn1)], executors := [("e1", exExecUb)] }

def exExecIdle : Executor :=
  { id := "e2", application := exApp, slots := 1, state := .Idle,
    ssn_id := none, task_id := none }

def exStIdle : Storage := { sessions := [(1, exSsn1)], executors := [("e2", exExecIdle)] }

def exExecBoundT : Executor :=
  { id := "e3", application := exApp, slots := 1, state := .Bound,
    ssn_id := some 1, task_id := some 1 }

def exStBound : Storage := { sessions := [(1, exSsn1)], executors := [("e3", exExecBoundT)] }

def exExecNew : Executor :=
  { id := "e1", application := exApp, slots := 2, state := .Idle,
    ssn_id := none, task_id := none }

def exStEmpty : Storage := { sessions := [], executors := [] }

def exExecIdleSsn : Executor :=
  { id := "e4", application := exApp, slots := 1, state := .Idle,
    ssn_id := some 1, task_id := none }

def exStIdleSsn : Storage :=
  { sessions := [(1, exSsn1)], executors := [("e4", exExecIdleSsn)] }

def exExecUnknownT : Executor :=
  { id := "u2", application := exApp, slots := 1, state := .Unknown,
    ssn_id := some 1, task_id := some 1 }

def exStUnknownT : Storage :=
  { sessions := [(1, exSsn1)], executors := [("u2", exExecUnknownT)] }

def exTaskSnapshot : Task :=
  { id := 1, ssn_id := 1, input := none, output := none, state := .Pending }

def exExecUnknown : Executor :=
  { id := "u1", application := exApp, slots := 1, state := .Unknown,
    ssn_id := none, task_id := none }

def exStUnknown : Storage :=
  { sessions := [(1, exSsn1)], executors := [("u1", exExecUnknown)] }

/- Claim theorems. -/

/-- C7: a configuration file whose applications list is empty makes
`FlameContext::from_file` fail with `InvalidConfig("no application")`;
a file with at least one application never fails for this reason. -/
theorem c7_from_file_no_application (fp : Option String) (home : String)
    (is_file : String → Bool) (load_path : String → Option FlameContext)
    (ctx : FlameContext)
    (hfile : is_file (resolvedPath fp home) = true)
    (hload : load_path (resolvedPath fp home) = some ctx) :
    (ctx.applications = [] →
      FlameContext.from_file fp home is_file load_path =
        .error (.InvalidConfig "no application"))
    ∧ (ctx.applications ≠ [] →
      FlameContext.from_file fp home is_file load_path ≠
        .error (.InvalidConfig "no application")) := by
  constructor
  · intro h
    simp [FlameContext.from_file, hfile, hload, h]
  · intro h
    have hE : ctx.applications.isEmpty = false := by
      cases hc : ctx.applications with
      | nil => exact absurd hc h
      | cons a l => simp [hc, List.isEmpty]
    simp [FlameContext.from_file, hfile, hload, hE]

/-- Witness for C7 at a concrete empty-application config and a
concrete one-application config. -/
theorem c7_from_file_no_application_witness :
    FlameContext.from_file (some "f.yaml") "/h" (fun _ => true)
      (fun _ => some { name := "n", endpoint := "e", slot := "s", policy := "p",
                       storage := "m", applications := [] }) =
      .error (.InvalidConfig "no application")
    ∧ FlameContext.from_file (some "f.yaml") "/h" (fun _ => true)
      (fun _ => some { name := "n", endpoint := "e", slot := "s", policy := "p",
                       storage := "m", applications := [exApp] }) ≠
      .error (.InvalidConfig "no application") :=
  ⟨(c7_from_file_no_application (some "f.yaml") "/h" _ _ _ rfl rfl).1 rfl,
   (c7_from_file_no_application (some "f.yaml") "/h" _ _ _ rfl rfl).2 (by simp [exApp])⟩

/-- C10: when the resolved path (explicit, or the
`$HOME/.flame/flame-conf.yaml` default) is not a file,
`FlameContext::from_file` fails with exactly
`InvalidConfig("<path> is not a file")` — so never `NotFound` or
`Internal`, and no configuration is returned. -/
theorem c10_from_file_missing_path (fp : Option String) (home : String)
    (is_file : String → Bool) (load_path : String → Option FlameContext)
    (h : is_file (resolvedPath fp home) = false) :
    FlameContext.from_file fp home is_file load_path =
      .error (.InvalidConfig ("<" ++ resolvedPath fp home ++ "> is not a file")) := by
  simp [FlameContext.from_file, h]

/-- Witness for C10 at the default path with no file present. -/
theorem c10_from_file_missing_path_witness :
    FlameContext.from_file none "/home/u" (fun _ => false) (fun _ => none) =
      .error (.InvalidConfig "</home/u/.flame/flame-conf.yaml> is not a file") :=
  c10_from_file_missing_path none "/home/u" _ _ rfl

/-- C9: `Storage::register_executor` never rejects a duplicate id — it
always succeeds, the new record replaces any existing record under the
same id, and all other executors and all sessions are unchanged. -/
theorem c9_register_executor_replaces (s : Storage) (e : Executor) :
    (s.register_executor e).1 = .ok ()
    ∧ ((s.register_executor e).2).sessions = s.sessions
    ∧ alookup ((s.register_executor e).2).executors e.id = some e
    ∧ ∀ k, k ≠ e.id → alookup ((s.register_executor e).2).executors k =
        alookup s.executors k := by
  refine ⟨rfl, rfl, alookup_ainsert_self .., ?_⟩
  intro k hk
  exact alookup_ainsert_ne _ _ _ _ hk

/-- Witness for C9: re-registering id e1 replaces the old record and
leaves an unrelated id untouched. -/
theorem c9_register_executor_replaces_witness :
    alookup ((exStUb.register_executor exExecNew).2).executors "e1" = some exExecNew
    ∧ alookup ((exStUb.register_executor exExecNew).2).executors "e9" =
        alookup exStUb.executors "e9" :=
  ⟨(c9_register_executor_replaces exStUb exExecNew).2.2.1,
   (c9_register_executor_replaces exStUb exExecNew).2.2.2 "e9" (by decide)⟩

/-- C1: `Storage::create_task` on a Closed session fails with
`InvalidState` and leaves the storage (hence the session's `tasks` map
and its Pending bucket) unchanged; on an absent session id it fails
with `NotFound`, also leaving the storage unchanged. -/
theorem c1_create_task_closed_or_missing (s : Storage) (sid : SessionID)
    (inp : Option TaskInput) :
    (∀ ssn, alookup s.sessions sid = some ssn → ssn.state = .Closed →
        (s.create_task sid inp).1 = .error (.InvalidState "session closed")
        ∧ (s.create_task sid inp).2 = s)
    ∧ (alookup s.sessions sid = none →
        (s.create_task sid inp).1 = .error (.NotFound (toString sid))
        ∧ (s.create_task sid inp).2 = s) := by
  constructor
  · intro ssn h hclosed
    simp [Storage.create_task, engineCreateTask, h, hclosed]
  · intro h
    simp [Storage.create_task, engineCreateTask, h]

/-- Witness for C1: creating a task in the concrete Closed session 2 is
rejected with `InvalidState` leaving the storage unchanged, and session
7 is absent so creation fails `NotFound`. -/
theorem c1_create_task_closed_or_missing_witness :
    ((exStClosed.create_task 2 none).1 = .error (.InvalidState "session closed")
      ∧ (exStClosed.create_task 2 none).2 = exStClosed)
    ∧ (exStClosed.create_task 7 none).1 = .error (.NotFound "7") :=
  ⟨(c1_create_task_closed_or_missing exStClosed 2 none).1 exSsnClosed rfl rfl,
   ((c1_create_task_closed_or_missing exStClosed 7 none).2 rfl).1⟩

/-- C2 counterexample: on the concrete storage `exStUb` — executor e1
Unbinding and bound to session 1 whose `allocated` is 5 — the verb
`unbind_executor_completed` succeeds but the session's `allocated`
stays 5 instead of dropping to 4 as the claim demands. -/
theorem c2_unbind_completed_allocated_counterexample :
    (exStUb.unbind_executor_completed "e1").1 = .ok ()
    ∧ (alookup ((exStUb.unbind_executor_completed "e1").2).sessions 1).map
        Session.allocated = some 5
    ∧ ¬ (alookup ((exStUb.unbind_executor_completed "e1").2).sessions 1).map
        Session.allocated = some 4 := by
  refine ⟨rfl, rfl, by decide⟩

/-- C2 (amended): on an Unbinding executor, `unbind_executor_completed`
sets state Idle and clears `ssn_id` and `task_id`, leaving the sessions
map — in particular the bound session's `allocated` count — unchanged;
and any `bind_session`, `unbind_executor`, `unbind_executor_completed`
sequence from Idle returns the executor to Idle with `ssn_id = None`
and `task_id = None`. -/
theorem c2_unbind_completed_amended (s : Storage) (x : ExecutorID) (e : Executor)
    (sid : SessionID) (ssn : Session) :
    (alookup s.executors x = some e → e.state = .Unbinding →
      (s.unbind_executor_completed x).1 = .ok ()
      ∧ alookup ((s.unbind_executor_completed x).2).executors x =
          some { e with state := .Idle, ssn_id := none, task_id := none }
      ∧ ((s.unbind_executor_completed x).2).sessions = s.sessions)
    ∧ (alookup s.executors x = some e → e.state = .Idle →
        alookup s.sessions sid = some ssn →
      (s.bind_session x sid).1 = .ok ()
      ∧ (((s.bind_session x sid).2).unbind_executor x).1 = .ok ()
      ∧ (((((s.bind_session x sid).2).unbind_executor x).2).unbind_executor_completed
            x).1 = .ok ()
      ∧ alookup (((((s.bind_session x sid).2).unbind_executor
              x).2).unbind_executor_completed x).2.executors x =
          some { e with state := .Idle, ssn_id := none, task_id := none }) := by
  constructor
  · intro he hst
    refine ⟨?_, ?_, ?_⟩ <;>
      simp [Storage.unbind_executor_completed, he, hst,
        UnbindingState.unbind_executor_completed, alookup_ainsert_self]
  · intro he hst hssn
    refine ⟨?_, ?_, ?_, ?_⟩ <;>
      simp [Storage.bind_session, Storage.unbind_executor,
        Storage.unbind_executor_completed, IdleState.bind_session,
        BindingState.unbind_executor, UnbindingState.unbind_executor_completed,
        he, hst, hssn, alookup_ainsert_self]

/-- Witness for C2 (amended): the Unbinding part at `exStUb` and the
full Idle sequence at `exStIdle`. -/
theorem c2_unbind_completed_amended_witness :
    ((exStUb.unbind_executor_completed "e1").1 = .ok ()
      ∧ alookup ((exStUb.unbind_executor_completed "e1").2).executors "e1" =
          some { exExecUb with state := .Idle, ssn_id := none, task_id := none }
      ∧ ((exStUb.unbind_executor_completed "e1").2).sessions = exStUb.sessions)
    ∧ alookup ((((((exStIdle.bind_session "e2" 1).2).unbind_executor
            "e2").2).unbind_executor_completed "e2").2).executors "e2" =
        some { exExecIdle with state := .Idle, ssn_id := none, task_id := none } :=
  ⟨(c2_unbind_completed_amended exStUb "e1" exExecUb 1 exSsn1).1 rfl rfl,
   ((c2_unbind_completed_amended exStIdle "e2" exExecIdle 1 exSsn1).2 rfl rfl
      rfl).2.2.2⟩

/-- C3 counterexample: on an Unbinding executor (concrete storage
`exStUb`), `launch_task` returns `Ok(None)` and `unbind_executor`
returns `Ok` — neither verb is rejected with `InvalidState` as the
claim demands for verbs outside the transition table. -/
theorem c3_unbinding_not_rejected_counterexample :
    (exStUb.launch_task "e1").1 = VerbRes.ok none
    ∧ (exStUb.unbind_executor "e1").1 = VerbRes.ok () := by
  exact ⟨rfl, rfl⟩

/-- C3 (amended): every verb pair not listed in the transition table of
section 4.D is rejected with `InvalidState` and leaves the storage —
hence the executor record — unchanged, for executors in state Idle,
Binding, Bound and Unknown (for `launch_task` and `complete_task` this
is stated for records whose session / task references resolve in the
maps, i.e. where the verb reaches the state machine).  The sole
exceptions are on an executor in state Unbinding, where the unlisted
verbs deviate: `launch_task` returns `Ok(None)` with the executor
record and the session unchanged, `unbind_executor` returns `Ok`
re-writing state = Unbinding and changing nothing else, and
`bind_session` / `bind_session_completed` panic (`todo!()` in the
source) rather than returning `InvalidState`. -/
theorem c3_unlisted_verbs_amended (s : Storage) (x : ExecutorID) (e : Executor)
    (sid : SessionID) (tid : TaskID) (ssn : Session) (t : Task)
    (out : Option TaskOutput) :
    (alookup s.executors x = some e → e.state = .Unbinding → e.ssn_id = some sid →
        e.task_id = none → alookup s.sessions sid = some ssn →
      (s.launch_task x).1 = .ok none
      ∧ alookup ((s.launch_task x).2).executors x = some e
      ∧ alookup ((s.launch_task x).2).sessions sid = some ssn)
    ∧ (alookup s.executors x = some e → e.state = .Unbinding →
      (s.unbind_executor x).1 = .ok ()
      ∧ alookup ((s.unbind_executor x).2).executors x =
          some { e with state := .Unbinding })
    ∧ (alookup s.executors x = some e → e.state = .Unbinding →
        alookup s.sessions sid = some ssn →
      s.bind_session x sid = (.panics, s)
      ∧ s.bind_session_completed x = (.panics, s))
    ∧ (alookup s.executors x = some e → alookup s.sessions sid = some ssn →
        (e.state = .Binding ∨ e.state = .Bound ∨ e.state = .Unknown) →
      s.bind_session x sid = (.err (.InvalidState "bind_session"), s))
    ∧ (alookup s.executors x = some e →
        (e.state = .Idle ∨ e.state = .Bound ∨ e.state = .Unknown) →
      s.bind_session_completed x =
        (.err (.InvalidState "bind_session_completed"), s))
    ∧ (alookup s.executors x = some e →
        (e.state = .Idle ∨ e.state = .Unknown) →
      s.unbind_executor x = (.err (.InvalidState "unbind_executor"), s))
    ∧ (alookup s.executors x = some e → e.state ≠ .Unbinding →
      s.unbind_executor_completed x =
        (.err (.InvalidState "unbind_executor_completed"), s))
    ∧ (alookup s.executors x = some e → e.ssn_id = some sid → e.task_id = none →
        alookup s.sessions sid = some ssn →
        (e.state = .Idle ∨ e.state = .Binding ∨ e.state = .Unknown) →
      s.launch_task x = (.err (.InvalidState "launch_task"), s))
    ∧ (alookup s.executors x = some e → e.ssn_id = some sid →
        e.task_id = some tid → alookup s.sessions sid = some ssn →
        alookup ssn.tasks tid = some t →
        (e.state = .Idle ∨ e.state = .Binding ∨ e.state = .Unknown) →
      s.complete_task x out = (.err (.InvalidState "complete_task"), s)) := by
  refine ⟨?_, ?_, ?_, ?_, ?_, ?_, ?_, ?_, ?_⟩
  · intro he hst hsid htid hssn
    refine ⟨?_, ?_, ?_⟩ <;>
      simp [Storage.launch_task, he, hst, hsid, htid, hssn,
        UnbindingState.launch_task, alookup_ainsert_self]
  · intro he hst
    constructor <;>
      simp [Storage.unbind_executor, he, hst, UnbindingState.unbind_executor,
        alookup_ainsert_self]
  · intro he hst hssn
    constructor <;>
      simp [Storage.bind_session, Storage.bind_session_completed, he, hst, hssn]
  · intro he hssn hst
    rcases hst with h | h | h <;> simp [Storage.bind_session, he, hssn, h]
  · intro he hst
    rcases hst with h | h | h <;> simp [Storage.bind_session_completed, he, h]
  · intro he hst
    rcases hst with h | h <;> simp [Storage.unbind_executor, he, h]
  · intro he hst
    cases h : e.state
    case Unbinding => exact absurd h hst
    all_goals simp [Storage.unbind_executor_completed, he, h]
  · intro he hsid htid hssn hst
    rcases hst with h | h | h <;>
      simp [Storage.launch_task, he, hsid, htid, hssn, h]
  · intro he hsid htid hssn htask hst
    rcases hst with h | h | h <;>
      simp [Storage.complete_task, Storage.get_task_ptr, he, hsid, htid, hssn,
        htask, h]

/-- Witness for C3 (amended): the Unbinding deviations at `exStUb`
(including the panicking `bind_session`), and concrete rejections —
`bind_session` on the Bound e3, `unbind_executor` on the Idle e2,
`unbind_executor_completed` on the Unknown u1, `launch_task` on the
Idle-with-session e4, `complete_task` on the Unknown-with-task u2. -/
theorem c3_unlisted_verbs_amended_witness :
    ((exStUb.launch_task "e1").1 = .ok none
      ∧ alookup ((exStUb.launch_task "e1").2).executors "e1" = some exExecUb
      ∧ alookup ((exStUb.launch_task "e1").2).sessions 1 = some exSsn1)
    ∧ exStUb.bind_session "e1" 1 = (.panics, exStUb)
    ∧ exStBound.bind_session "e3" 1 =
        (.err (.InvalidState "bind_session"), exStBound)
    ∧ exStIdle.unbind_executor "e2" =
        (.err (.InvalidState "unbind_executor"), exStIdle)
    ∧ exStUnknown.unbind_executor_completed "u1" =
        (.err (.InvalidState "unbind_executor_completed"), exStUnknown)
    ∧ exStIdleSsn.launch_task "e4" =
        (.err (.InvalidState "launch_task"), exStIdleSsn)
    ∧ exStUnknownT.complete_task "u2" (some "o") =
        (.err (.InvalidState "complete_task"), exStUnknownT) :=
  ⟨(c3_unlisted_verbs_amended exStUb "e1" exExecUb 1 1 exSsn1 exTask1 none).1
      rfl rfl rfl rfl rfl,
   ((c3_unlisted_verbs_amended exStUb "e1" exExecUb 1 1 exSsn1 exTask1 none).2.2.1
      rfl rfl rfl).1,
   (c3_unlisted_verbs_amended exStBound "e3" exExecBoundT 1 1 exSsn1 exTask1
      none).2.2.2.1 rfl rfl (Or.inr (Or.inl rfl)),
   (c3_unlisted_verbs_amended exStIdle "e2" exExecIdle 1 1 exSsn1 exTask1
      none).2.2.2.2.2.1 rfl (Or.inl rfl),
   (c3_unlisted_verbs_amended exStUnknown "u1" exExecUnknown 1 1 exSsn1 exTask1
      none).2.2.2.2.2.2.1 rfl (by simp [exExecUnknown]),
   (c3_unlisted_verbs_amended exStIdleSsn "e4" exExecIdleSsn 1 1 exSsn1 exTask1
      none).2.2.2.2.2.2.2.1 rfl rfl rfl rfl (Or.inl rfl),
   (c3_unlisted_verbs_amended exStUnknownT "u2" exExecUnknownT 1 1 exSsn1 exTask1
      (some "o")).2.2.2.2.2.2.2.2 rfl rfl rfl rfl rfl (Or.inr (Or.inr rfl))⟩

/-- C6: `complete_task` on a Bound executor whose in-flight task is t
writes the output into t, transitions t to Succeed, clears the
executor's `task_id` — and exactly once: a second `complete_task` on
the same executor (no new task launched) fails `InvalidState`. -/
theorem c6_complete_task_exactly_once (s : Storage) (x : ExecutorID) (e : Executor)
    (sid : SessionID) (tid : TaskID) (ssn : Session) (t : Task)
    (out : Option TaskOutput)
    (he : alookup s.executors x = some e)
    (hb : e.state = .Bound)
    (hs : e.ssn_id = some sid)
    (ht : e.task_id = some tid)
    (hssn : alookup s.sessions sid = some ssn)
    (htask : alookup ssn.tasks tid = some t)
    (hid : t.id = tid) :
    (s.complete_task x out).1 = .ok ()
    ∧ alookup ((s.complete_task x out).2).executors x = some { e with task_id := none }
    ∧ (∃ ssn2, alookup ((s.complete_task x out).2).sessions sid = some ssn2
        ∧ alookup ssn2.tasks tid = some { t with output := out, state := .Succeed })
    ∧ (((s.complete_task x out).2).complete_task x out).1 =
        .err (.InvalidState "no task in executor") := by
  refine ⟨?_, ?_, ?_, ?_⟩ <;>
    simp [Storage.complete_task, Storage.get_task_ptr, BoundState.complete_task,
      setTaskOutput, Session.update_task_state, Session.add_task,
      he, hb, hs, ht, hssn, htask, hid, alookup_ainsert_self]

/-- Witness for C6: completing the Bound task of e3 with output
"world", then attempting a second completion. -/
theorem c6_complete_task_exactly_once_witness :
    (exStBound.complete_task "e3" (some "world")).1 = .ok ()
    ∧ alookup ((exStBound.complete_task "e3" (some "world")).2).executors "e3" =
        some { exExecBoundT with task_id := none }
    ∧ (∃ ssn2,
        alookup ((exStBound.complete_task "e3" (some "world")).2).sessions 1 = some ssn2
        ∧ alookup ssn2.tasks 1 =
            some { exTask1 with output := some "world", state := .Succeed })
    ∧ (((exStBound.complete_task "e3" (some "world")).2).complete_task "e3"
          (some "world")).1 = .err (.InvalidState "no task in executor") :=
  c6_complete_task_exactly_once exStBound "e3" exExecBoundT 1 1 exSsn1 exTask1
    (some "world") rfl rfl rfl rfl rfl rfl rfl

/-- C8: `Storage::launch_task` on an executor that already carries a
`task_id` (and has a session) returns `Ok(Some ..)` with the current
record of that task and leaves the whole storage — executors, sessions,
tasks, Pending buckets — unchanged. -/
theorem c8_relaunch_returns_current_task (s : Storage) (x : ExecutorID) (e : Executor)
    (sid : SessionID) (tid : TaskID) (ssn : Session) (t : Task)
    (he : alookup s.executors x = some e)
    (hs : e.ssn_id = some sid)
    (ht : e.task_id = some tid)
    (hssn : alookup s.sessions sid = some ssn)
    (htask : alookup ssn.tasks tid = some t) :
    s.launch_task x = (.ok (some t), s) := by
  simp [Storage.launch_task, Storage.get_task_ptr, he, hs, ht, hssn, htask]

/-- Witness for C8: re-launching on e3, which holds task 1 of session
1, returns that task and changes nothing. -/
theorem c8_relaunch_returns_current_task_witness :
    exStBound.launch_task "e3" = (.ok (some exTask1), exStBound) :=
  c8_relaunch_returns_current_task exStBound "e3" exExecBoundT 1 1 exSsn1 exTask1
    rfl rfl rfl rfl rfl

/-- C4 counterexample: the executor record captured by a pending
wait-for-session future has been removed from the executors map (the
concrete storage is empty), yet its poll stays `Pending` — it does not
resolve with `NotFound` as the claim demands on deletion. -/
theorem c4_wait_for_session_counterexample :
    alookup exStEmpty.executors exExecIdle.id = none
    ∧ waitForSsnPoll exExecIdle = Poll.Pending
    ∧ waitForSsnPoll exExecIdle ≠
        Poll.Ready (Except.error (FlameError.NotFound exExecIdle.id)) := by
  refine ⟨rfl, rfl, by simp [waitForSsnPoll, exExecIdle]⟩

/-- C4 (amended): `WaitForSsnFuture::poll` inspects only the executor
record the future captured at initiation: it resolves with the
SessionID exactly when that record's `ssn_id` is Some, stays Pending
exactly when it is None, and never yields an error — so removing the
executor from the executors map does not resolve a pending wait with
`NotFound`.  `NotFound` arises only at initiation, when
`Storage::wait_for_session` resolves the executor id. -/
theorem c4_wait_for_session_amended (e : Executor) (s : Storage) (x : ExecutorID) :
    (∀ sid, waitForSsnPoll e = .Ready (.ok sid) ↔ e.ssn_id = some sid)
    ∧ (waitForSsnPoll e = .Pending ↔ e.ssn_id = none)
    ∧ (∀ er, waitForSsnPoll e ≠ .Ready (.error er))
    ∧ (alookup s.executors x = none →
        s.get_executor_ptr x = .error (.NotFound x)) := by
  refine ⟨?_, ?_, ?_, ?_⟩
  · intro sid
    cases h : e.ssn_id <;> simp [waitForSsnPoll, h]
  · cases h : e.ssn_id <;> simp [waitForSsnPoll, h]
  · intro er
    cases h : e.ssn_id <;> simp [waitForSsnPoll, h]
  · intro h
    simp [Storage.get_executor_ptr, h]

/-- Witness for C4 (amended): the bound executor e3 resolves with
session 1; the id "nobody" is absent so initiation fails `NotFound`. -/
theorem c4_wait_for_session_amended_witness :
    waitForSsnPoll exExecBoundT = .Ready (.ok 1)
    ∧ exStEmpty.get_executor_ptr "nobody" = .error (.NotFound "nobody") :=
  ⟨((c4_wait_for_session_amended exExecBoundT exStEmpty "nobody").1 1).mpr rfl,
   (c4_wait_for_session_amended exExecBoundT exStEmpty "nobody").2.2.2 rfl⟩

/-- C5: `WatchTaskFuture::new` snapshots the task's state at
construction; the poll resolves `Ready(Ok)` exactly when the task's
current state differs from that snapshot or `is_completed()` holds,
stays Pending exactly otherwise, and surfaces the `get_task_ptr` error
— `NotFound` when the session or the task has been deleted. -/
theorem c5_watch_task_resolution (s : Storage) (t0 cur : Task) :
    ((WatchTaskFuture.new t0).current_state = t0.state)
    ∧ (s.get_task_ptr t0.ssn_id t0.id = .ok cur →
        ((WatchTaskFuture.new t0).poll s = .Ready (.ok ()) ↔
          (t0.state ≠ cur.state ∨ cur.is_completed = true))
        ∧ ((WatchTaskFuture.new t0).poll s = .Pending ↔
          (t0.state = cur.state ∧ cur.is_completed = false)))
    ∧ (∀ er, s.get_task_ptr t0.ssn_id t0.id = .error er →
        (WatchTaskFuture.new t0).poll s = .Ready (.error er))
    ∧ (alookup s.sessions t0.ssn_id = none →
        (WatchTaskFuture.new t0).poll s =
          .Ready (.error (.NotFound (toString t0.ssn_id))))
    ∧ (∀ ssn, alookup s.sessions t0.ssn_id = some ssn →
        alookup ssn.tasks t0.id = none →
        (WatchTaskFuture.new t0).poll s =
          .Ready (.error (.NotFound (toString t0.ssn_id)))) := by
  refine ⟨rfl, ?_, ?_, ?_, ?_⟩
  · intro h
    constructor
    · constructor
      · intro hp
        by_contra hc
        push_neg at hc
        simp [WatchTaskFuture.poll, WatchTaskFuture.new, h, hc.1, hc.2] at hp
      · intro hc
        rcases hc with hne | hcomp
        · simp [WatchTaskFuture.poll, WatchTaskFuture.new, h, hne]
        · simp [WatchTaskFuture.poll, WatchTaskFuture.new, h, hcomp]
    · constructor
      · intro hp
        constructor
        · by_contra hne
          simp [WatchTaskFuture.poll, WatchTaskFuture.new, h, hne] at hp
        · by_contra hcomp
          simp only [Bool.not_eq_false] at hcomp
          simp [WatchTaskFuture.poll, WatchTaskFuture.new, h, hcomp] at hp
      · intro hc
        simp [WatchTaskFuture.poll, WatchTaskFuture.new, h, hc.1, hc.2]
  · intro er h
    simp [WatchTaskFuture.poll, WatchTaskFuture.new, h]
  · intro h
    simp [WatchTaskFuture.poll, WatchTaskFuture.new, Storage.get_task_ptr, h]
  · intro ssn h ht
    simp [WatchTaskFuture.poll, WatchTaskFuture.new, Storage.get_task_ptr, h, ht]

/-- Witness for C5: a watch snapshotted while task 1 was Pending
resolves once the stored record is Running; a watch over a storage
where session 1 is absent resolves `NotFound`. -/
theorem c5_watch_task_resolution_witness :
    (WatchTaskFuture.new exTaskSnapshot).poll exStUb = .Ready (.ok ())
    ∧ (WatchTaskFuture.new exTaskSnapshot).poll exStClosed =
        .Ready (.error (.NotFound "1")) :=
  ⟨((c5_watch_task_resolution exStUb exTaskSnapshot exTask1).2.1 rfl).1.mpr
      (Or.inl (by decide)),
   (c5_watch_task_resolution exStClosed exTaskSnapshot exTask1).2.2.2.1 rfl⟩

end Flame
